import Mathlib

/-!
Shallow embedding of `src/server.py` (Tehran Stock Exchange MCP server).

The server exposes three tool handlers (`search_stock`, `get_stock_info`,
`get_stock_history`) over one upstream HTTP JSON API, a process-wide
symbol cache, a uniform response envelope (`return_message`) and a single
fetch helper (`make_request`).

Modelling conventions:
  * JSON values are the inductive `Json` below; Python dicts are key/value
    lists, numbers are rationals, upstream dates are strings.
  * The cache (`STOCKS_CACHE`, a Python dict) is a function
    `String → Option String`; `update_cache` overwrites one key.
  * Each handler is a pure function of its arguments, the current cache and
    an oracle for the upstream fetch outcome (`Fetched`): `.raised` stands
    for any exception escaping the fetch or response processing (caught by
    the handler's `except` block), `.resp` carries the decoded payload the
    handler actually reads.  Handlers return their envelope together with
    the list of URLs fetched during the call (and, for search, the new
    cache).
  * Python truthiness is explicit: `struthy`/`qtruthy`/`jtruthy` below.
-/

namespace TseMcp

/-- JSON values exchanged with the upstream API and returned to the host. -/
inductive Json where
  | null : Json
  | bool (b : Bool) : Json
  | str (s : String) : Json
  | num (q : ℚ) : Json
  | arr (xs : List Json) : Json
  | obj (kvs : List (String × Json)) : Json

/-- Python `d.get(k)` on a JSON object: first binding wins, `None` when the
key is absent or the value is not a dict. -/
def Json.get : Json → String → Option Json
  | .obj kvs, k => (kvs.find? (fun p => p.1 == k)).map (fun p => p.2)
  | _, _ => none

/-- Python truthiness of a JSON value (`if x:`). -/
def jtruthy : Json → Bool
  | .null => false
  | .bool b => b
  | .str s => decide (s ≠ "")
  | .num q => decide (q ≠ 0)
  | .arr xs => !xs.isEmpty
  | .obj kvs => !kvs.isEmpty

/-- Python truthiness of an optional string (`ticker.get(..)` results). -/
def struthy : Option String → Bool
  | none => false
  | some s => decide (s ≠ "")

/-- Python truthiness of an optional number (`0` and `None` are falsy). -/
def qtruthy : Option ℚ → Bool
  | none => false
  | some q => decide (q ≠ 0)

/-- Python `str.strip()`: drop whitespace from both ends (used on the
`query`/`symbol` arguments). -/
def pystrip (s : String) : String :=
  ⟨((s.data.dropWhile Char.isWhitespace).reverse.dropWhile Char.isWhitespace).reverse⟩

/-- The response dictionaries built by `return_message` (source lines 24-39). -/
abbrev Envelope := List (String × Json)

/-- Source lines 24-39: `return_message` builds `{"isSuccess": .., "data": ..}`
and adds a `"message"` key only when the message string is truthy
(i.e. non-empty). -/
def return_message (is_success : Bool) (data : Json) (message : String) : Envelope :=
  [("isSuccess", Json.bool is_success), ("data", data)] ++
    (if message = "" then [] else [("message", Json.str message)])

/-- Key lookup in an envelope (the host reads the returned dict). -/
def envGet (e : Envelope) (k : String) : Option Json :=
  (e.find? (fun p => p.1 == k)).map (fun p => p.2)

/-- The keys of an envelope, in insertion order. -/
def envKeys (e : Envelope) : List String := e.map (fun p => p.1)

/-- `STOCKS_CACHE` (source line 13): symbol to instrument code. -/
abbrev Cache := String → Option String

/-- The cache at process start: empty. -/
def emptyCache : Cache := fun _ => none

/-- Source lines 16-17: membership test. -/
def is_cache_valid (cache : Cache) (symbol : String) : Bool :=
  (cache symbol).isSome

/-- Source lines 20-21: `STOCKS_CACHE[symbol] = instrument_code`. -/
def update_cache (cache : Cache) (symbol instrument_code : String) : Cache :=
  fun k => if k = symbol then some instrument_code else cache k

/-- Source lines 42-48: `make_request` returns the parsed body on HTTP 200
and the sentinel `{"error": "Failed to fetch data"}` on any other status.
`status`/`body` stand for the upstream response; the URL does not influence
the result. -/
def make_request (url : String) (status : Nat) (body : Json) : Json :=
  if status ≠ 200 then Json.obj [("error", Json.str "Failed to fetch data")] else body

/-- Outcome of one upstream fetch as seen by a handler: either an exception
escaped (network failure, malformed payload — caught by the handler's
`except`), or the payload the handler goes on to read. -/
inductive Fetched (α : Type) where
  | raised : Fetched α
  | resp (payload : α) : Fetched α

/-- One entry of the upstream `instrumentSearch` list; the handler reads the
four string fields below (source lines 80-92). -/
structure Ticker where
  lVal30 : Option String
  lVal18AFC : Option String
  flowTitle : Option String
  insCode : Option String

/-- The projected search result built per ticker (source lines 81-86). -/
structure StockData where
  name : String
  symbol : String
  market_name : String
  instrument_code : String

/-- Source lines 81-86: project a ticker, defaulting missing fields. -/
def format_ticker (t : Ticker) : StockData :=
  ⟨t.lVal30.getD "Unknown", t.lVal18AFC.getD "Unknown",
   t.flowTitle.getD "Unknown", t.insCode.getD ""⟩

/-- The JSON dict appended to `formatted_results` for one ticker. -/
def encodeStock (d : StockData) : Json :=
  Json.obj [("name", Json.str d.name), ("symbol", Json.str d.symbol),
    ("market_name", Json.str d.market_name), ("instrument_code", Json.str d.instrument_code)]

/-- Source lines 89-92: the cache is updated only when both `lVal18AFC` and
`insCode` are truthy (present and non-empty). -/
def tickerCacheable (t : Ticker) : Bool :=
  struthy t.lVal18AFC && struthy t.insCode

/-- The cache write performed for one ticker of the top-10 slice. -/
def cacheStep (cache : Cache) (t : Ticker) : Cache :=
  if tickerCacheable t then update_cache cache (t.lVal18AFC.getD "") (t.insCode.getD "") else cache

/-- The cache after the per-ticker loop of `search_stock` (lines 80-92). -/
def cache_after (cache : Cache) (ts : List Ticker) : Cache :=
  ts.foldl cacheStep cache

/-- Source lines 51-101: `search_stock`.  `up` is the decoded
`instrumentSearch` field of the fetched JSON: `none` when the key is absent
or falsy, otherwise the list of tickers.  Returns the envelope and the
cache after the call.  Note line 74-76 passes the guidance text as the
`data` positional argument of `return_message`, leaving the message
argument at its empty default. -/
def search_stock (query : String) (cache : Cache) (up : Fetched (Option (List Ticker))) :
    Envelope × Cache :=
  let query := pystrip query
  match up with
  | .raised =>
    (return_message false (Json.arr []) "An unexpected error occurred while searching", cache)
  | .resp instruments =>
    match instruments with
    | none =>
      (return_message false (Json.str "No Tickers found. Make sure you used a correct query") "",
       cache)
    | some ts =>
      if ts.isEmpty then
        (return_message false (Json.str "No Tickers found. Make sure you used a correct query") "",
         cache)
      else
        let top_results := ts.take 10
        let formatted_results := top_results.map format_ticker
        (return_message true (Json.arr (formatted_results.map encodeStock))
          ("Found " ++ toString formatted_results.length ++ " stocks matching \x27" ++ query ++ "\x27"),
         cache_after cache top_results)

/-- The `closingPriceInfo` record as read by `get_stock_info`
(source lines 137-152): upstream prices/counts are numbers, `dEven` is the
date. -/
structure ClosingPriceInfo where
  dEven : Option String
  price_first : Option ℚ
  pDrCotVal : Option ℚ
  priceMax : Option ℚ
  priceMin : Option ℚ
  last : Option ℚ
  priceYesterday : Option ℚ
  zTotTran : Option ℚ
  qTotTran5J : Option ℚ
  qTotCap : Option ℚ

/-- Encode an optional number the way the handler stores it in its dict. -/
def optNum : Option ℚ → Json
  | none => Json.null
  | some q => Json.num q

/-- Encode an optional string the way the handler stores it in its dict. -/
def optStr : Option String → Json
  | none => Json.null
  | some s => Json.str s

/-- Python `round` ties-to-even on an exact rational. -/
def roundHalfEven (q : ℚ) : ℤ :=
  if q - ⌊q⌋ < 1 / 2 then ⌊q⌋
  else if (1 : ℚ) / 2 < q - ⌊q⌋ then ⌊q⌋ + 1
  else if ⌊q⌋ % 2 = 0 then ⌊q⌋ else ⌊q⌋ + 1

/-- Python `round(x, 2)` on an exact rational. -/
def pyRound2 (q : ℚ) : ℚ := (roundHalfEven (q * 100) : ℚ) / 100

/-- Source lines 157-164: `change`/`change_percent` are filled in only when
both `close` and `yesterday_price` are truthy (present and nonzero);
otherwise both stay `None`.  The inner `if yesterday_price != 0 else 0`
of line 162 is kept verbatim even though the outer guard already rules out
a zero `yesterday_price`. -/
def changeFields (cp : ClosingPriceInfo) : Json × Json :=
  if qtruthy cp.pDrCotVal && qtruthy cp.priceYesterday then
    let current_price := cp.pDrCotVal.getD 0
    let yesterday_price := cp.priceYesterday.getD 0
    let change := current_price - yesterday_price
    let change_percent := if yesterday_price ≠ 0 then change / yesterday_price * 100 else 0
    (Json.num change, Json.num (pyRound2 change_percent))
  else
    (Json.null, Json.null)

/-- Source lines 166-168: `total_value_millions` is filled in only when
`total_value_rial` is truthy. -/
def totalValueMillions (cp : ClosingPriceInfo) : Json :=
  if qtruthy cp.qTotCap then Json.num (pyRound2 (cp.qTotCap.getD 0 / 1000000)) else Json.null

/-- The `stock_info` dict assembled on the success path of `get_stock_info`
(source lines 134-168), with the post-assembly mutations of lines 160-168
already applied.  `now` stands for `datetime.now().isoformat()`. -/
def stockInfoJson (symbol instrument_code : String) (cp : ClosingPriceInfo) (now : String) : Json :=
  Json.obj [
    ("symbol", Json.str symbol),
    ("instrument_code", Json.str instrument_code),
    ("date", optStr cp.dEven),
    ("trading_data", Json.obj [
      ("open", optNum cp.price_first),
      ("close", optNum cp.pDrCotVal),
      ("high", optNum cp.priceMax),
      ("low", optNum cp.priceMin),
      ("last", optNum cp.last),
      ("yesterday_price", optNum cp.priceYesterday),
      ("change", (changeFields cp).1),
      ("change_percent", (changeFields cp).2)]),
    ("volume_data", Json.obj [
      ("total_transactions", optNum cp.zTotTran),
      ("total_volume", optNum cp.qTotTran5J),
      ("total_value_rial", optNum cp.qTotCap),
      ("total_value_millions", totalValueMillions cp)]),
    ("timestamp", Json.str now)]

/-- The closing-price-info URL (source lines 124-126). -/
def infoUrl (instrument_code : String) : String :=
  "https://cdn.tsetmc.com/api/ClosingPrice/GetClosingPriceInfo/" ++ instrument_code

/-- Source lines 104-173: `get_stock_info`.  `up` is the decoded
`closingPriceInfo` field of the fetched JSON (`none` when absent or falsy).
Returns the envelope and the list of URLs fetched during the call. -/
def get_stock_info (symbol : String) (cache : Cache) (up : Fetched (Option ClosingPriceInfo))
    (now : String) : Envelope × List String :=
  let symbol := pystrip symbol
  match cache symbol with
  | none =>
    (return_message false (Json.obj [])
      ("Stock \x27" ++ symbol ++ "\x27 not found in cache. Please search for the stock first using search_stock tool."), [])
  | some instrument_code =>
    if instrument_code = "" then
      (return_message false (Json.obj [])
        ("Stock \x27" ++ symbol ++ "\x27 not found in cache. Please search for the stock first using search_stock tool."), [])
    else
      match up with
      | .raised =>
        (return_message false (Json.obj []) "An unexpected error occurred while fetching stock data",
         [infoUrl instrument_code])
      | .resp none =>
        (return_message false (Json.obj []) ("No trading data found for \x27" ++ symbol ++ "\x27"),
         [infoUrl instrument_code])
      | .resp (some cp) =>
        (return_message true (stockInfoJson symbol instrument_code cp now)
          ("Successfully retrieved data for " ++ symbol),
         [infoUrl instrument_code])

/-- One entry of the upstream `closingPriceDaily` list as read by
`get_stock_history` (source lines 224-233). -/
structure DailyEntry where
  dEven : Option String
  price_first : Option ℚ
  priceMax : Option ℚ
  priceMin : Option ℚ
  last : Option ℚ
  qTotTran5J : Option ℚ
  qTotCap : Option ℚ
  zTotTran : Option ℚ

/-- The `days` argument as received from the host: a Python `int`, or any
value of another type (`isinstance(days, int)` fails). -/
inductive DaysArg where
  | int (n : ℤ) : DaysArg
  | notInt : DaysArg

/-- Source lines 193-196: non-int or `< 1` resets to 30, `> 365` clamps. -/
def clampDays : DaysArg → ℤ
  | .notInt => 30
  | .int n => if n < 1 then 30 else if n > 365 then 365 else n

/-- The sort key of line 219: `x.get("dEven", "")`. -/
def histKey (d : DailyEntry) : String := d.dEven.getD ""

/-- Line 219 sorts with `reverse=True` on `histKey`: descending, stable. -/
def histLe (a b : DailyEntry) : Bool := decide (histKey b ≤ histKey a)

/-- Source lines 224-233: projection of one daily entry. -/
def formatDay (day : DailyEntry) : Json :=
  Json.obj [("date", optStr day.dEven), ("open", optNum day.price_first),
    ("high", optNum day.priceMax), ("low", optNum day.priceMin),
    ("close", optNum day.last), ("volume", optNum day.qTotTran5J),
    ("value", optNum day.qTotCap), ("transactions", optNum day.zTotTran)]

/-- The daily-closing-list URL (source line 210). -/
def histUrl (instrument_code : String) : String :=
  "https://cdn.tsetmc.com/api/ClosingPrice/GetClosingPriceDailyList/" ++ instrument_code ++ "/0"

/-- Source lines 176-246: `get_stock_history`.  `up` is the decoded
`closingPriceDaily` field (`result.get("closingPriceDaily", [])`), so an
absent key arrives as `.resp []`.  Returns the envelope and the list of
URLs fetched during the call. -/
def get_stock_history (symbol : String) (days : DaysArg) (cache : Cache)
    (up : Fetched (List DailyEntry)) : Envelope × List String :=
  if pystrip symbol = "" then
    (return_message false (Json.arr []) "Symbol cannot be empty", [])
  else
    let symbol := pystrip symbol
    let days := clampDays days
    match cache symbol with
    | none =>
      (return_message false (Json.arr [])
        ("Stock \x27" ++ symbol ++ "\x27 not found in cache. Please search for the stock first using search_stock tool."), [])
    | some instrument_code =>
      if instrument_code = "" then
        (return_message false (Json.arr [])
          ("Stock \x27" ++ symbol ++ "\x27 not found in cache. Please search for the stock first using search_stock tool."), [])
      else
        match up with
        | .raised =>
          (return_message false (Json.arr [])
            "An unexpected error occurred while fetching historical data",
           [histUrl instrument_code])
        | .resp daily_data =>
          if daily_data.isEmpty then
            (return_message false (Json.arr [])
              ("No historical data found for \x27" ++ symbol ++ "\x27"),
             [histUrl instrument_code])
          else
            let recent_data := (daily_data.mergeSort histLe).take days.toNat
            let formatted_history := recent_data.map formatDay
            (return_message true (Json.arr formatted_history)
              ("Retrieved " ++ toString formatted_history.length ++
                " days of historical data for " ++ symbol),
             [histUrl instrument_code])

/-- Read a string field from a JSON object (used by the decode bridge). -/
def getStr (j : Json) (k : String) : Option String :=
  match j.get k with
  | some (Json.str s) => some s
  | _ => none

/-- Read a numeric field from a JSON object (used by the decode bridge). -/
def getNum (j : Json) (k : String) : Option ℚ :=
  match j.get k with
  | some (Json.num q) => some q
  | _ => none

/-- Decode one element of the `instrumentSearch` array; a non-dict element
makes the handler's per-ticker field accesses raise. -/
def decodeTicker (j : Json) : Option Ticker :=
  match j with
  | Json.obj _ => some ⟨getStr j "lVal30", getStr j "lVal18AFC", getStr j "flowTitle", getStr j "insCode"⟩
  | _ => none

/-- Bridge from the raw JSON returned by `make_request` to the payload
`search_stock` reads: `search_result.get("instrumentSearch")` followed by
the truthiness test of line 73. -/
def decodeSearch (j : Json) : Fetched (Option (List Ticker)) :=
  match j.get "instrumentSearch" with
  | none => .resp none
  | some (Json.arr xs) =>
    match xs.mapM decodeTicker with
    | some ts => .resp (some ts)
    | none => .raised
  | some v => if jtruthy v then .raised else .resp none

/-- Decode the `closingPriceInfo` value; a non-dict truthy value makes the
handler's field accesses raise. -/
def decodeClosing (j : Json) : Option ClosingPriceInfo :=
  match j with
  | Json.obj _ => some ⟨getStr j "dEven", getNum j "price_first", getNum j "pDrCotVal",
      getNum j "priceMax", getNum j "priceMin", getNum j "last", getNum j "priceYesterday",
      getNum j "zTotTran", getNum j "qTotTran5J", getNum j "qTotCap"⟩
  | _ => none

/-- Bridge from the raw JSON returned by `make_request` to the payload
`get_stock_info` reads: `result.get("closingPriceInfo")` plus the
truthiness test of line 131. -/
def decodeInfo (j : Json) : Fetched (Option ClosingPriceInfo) :=
  match j.get "closingPriceInfo" with
  | none => .resp none
  | some v =>
    if jtruthy v then
      match decodeClosing v with
      | some cp => .resp (some cp)
      | none => .raised
    else .resp none

/-- Decode one element of the `closingPriceDaily` array. -/
def decodeDaily (j : Json) : Option DailyEntry :=
  match j with
  | Json.obj _ => some ⟨getStr j "dEven", getNum j "price_first", getNum j "priceMax",
      getNum j "priceMin", getNum j "last", getNum j "qTotTran5J", getNum j "qTotCap",
      getNum j "zTotTran"⟩
  | _ => none

/-- Bridge from the raw JSON returned by `make_request` to the payload
`get_stock_history` reads: `result.get("closingPriceDaily", [])`. -/
def decodeHist (j : Json) : Fetched (List DailyEntry) :=
  match j.get "closingPriceDaily" with
  | none => .resp []
  | some (Json.arr xs) =>
    match xs.mapM decodeDaily with
    | some ds => .resp ds
    | none => .raised
  | some v => if jtruthy v then .raised else .resp []

/-- The symbols the per-ticker loop actually writes to the cache: those of
tickers whose `lVal18AFC` and `insCode` are both truthy (lines 89-92). -/
def cacheableSymbols (ts : List Ticker) : List String :=
  (ts.filter tickerCacheable).map (fun t => t.lVal18AFC.getD "")

/-- Concrete fixture: the cache after a search stored symbol `X` with
instrument code `1`. -/
def cacheX : Cache := update_cache emptyCache "X" "1"

/-- Concrete fixture: a closing-price record with `pDrCotVal = 1050` present
and `priceYesterday = 0`. -/
def cpZeroYesterday : ClosingPriceInfo :=
  ⟨none, none, some 1050, none, none, none, some 0, none, none, none⟩

/-- Concrete fixture: one daily entry dated `20240101`. -/
def d1 : DailyEntry := ⟨some "20240101", none, none, none, none, none, none, none⟩

/-- Concrete fixture: daily entry dated `20240103`. -/
def dA : DailyEntry := ⟨some "20240103", none, none, none, none, none, none, none⟩

/-- Concrete fixture: daily entry dated `20240101`. -/
def dB : DailyEntry := ⟨some "20240101", none, none, none, none, none, none, none⟩

/-- Concrete fixture: daily entry dated `20240102`. -/
def dC : DailyEntry := ⟨some "20240102", none, none, none, none, none, none, none⟩

/-- Concrete fixture: an out-of-order daily list. -/
def ds3 : List DailyEntry := [dB, dA, dC]

/-- Concrete fixture: a well-formed search hit. -/
def tKhodro : Ticker := ⟨some "Iran Khodro", some "KHODRO", some "Bourse", some "12345"⟩

/-- Concrete fixture: a search hit whose `insCode` is missing. -/
def tNoCode : Ticker := ⟨some "Nameless", some "X", some "Market", none⟩

/-- Clamping an already clamped `days` value changes nothing. -/
theorem clampDays_idem (d : DaysArg) :
    clampDays (DaysArg.int (clampDays d)) = clampDays d := by
  cases d with
  | notInt => simp [clampDays]
  | int n => simp only [clampDays]; split_ifs <;> omega

/-- Claim C9: `make_request` returns the parsed JSON body when the HTTP
status is 200, and the sentinel mapping `{"error": "Failed to fetch data"}`
for every non-200 status, for every URL. -/
theorem claim9_make_request_status (url : String) (status : Nat) (body : Json) :
    (status = 200 → make_request url status body = body) ∧
    (status ≠ 200 →
      make_request url status body = Json.obj [("error", Json.str "Failed to fetch data")]) := by
  constructor
  · intro h; simp [make_request, h]
  · intro h; simp [make_request, h]

/-- Witness for C9 at status 200 and status 404. -/
theorem claim9_witness :
    make_request "https://cdn.tsetmc.com/x" 200 (Json.bool true) = Json.bool true ∧
    make_request "https://cdn.tsetmc.com/x" 404 (Json.bool true) =
      Json.obj [("error", Json.str "Failed to fetch data")] :=
  ⟨(claim9_make_request_status "https://cdn.tsetmc.com/x" 200 (Json.bool true)).1 rfl,
   (claim9_make_request_status "https://cdn.tsetmc.com/x" 404 (Json.bool true)).2 (by decide)⟩

/-- Claim C5: in `get_stock_history`, a `days` argument that is non-positive
or not an integer is replaced by 30, a `days` above 365 is clamped to 365,
and any `days` in `1..365` is used unchanged; the handler behaves exactly
as if it had been called with the clamped value. -/
theorem claim5_days_clamping (n : ℤ) :
    clampDays DaysArg.notInt = 30 ∧
    (n ≤ 0 → clampDays (DaysArg.int n) = 30) ∧
    (n > 365 → clampDays (DaysArg.int n) = 365) ∧
    (1 ≤ n → n ≤ 365 → clampDays (DaysArg.int n) = n) ∧
    (∀ (symbol : String) (cache : Cache) (up : Fetched (List DailyEntry)) (d : DaysArg),
      get_stock_history symbol d cache up =
        get_stock_history symbol (DaysArg.int (clampDays d)) cache up) := by
  refine ⟨rfl, ?_, ?_, ?_, ?_⟩
  · intro h; simp only [clampDays]; split_ifs <;> omega
  · intro h; simp only [clampDays]; split_ifs <;> omega
  · intro h1 h2; simp only [clampDays]; split_ifs <;> omega
  · intro symbol cache up d
    simp only [get_stock_history, clampDays_idem]

/-- Witness for C5 at `days = 0`, `days = 400`, `days = 50` and a non-int. -/
theorem claim5_witness :
    clampDays DaysArg.notInt = 30 ∧
    clampDays (DaysArg.int 0) = 30 ∧
    clampDays (DaysArg.int 400) = 365 ∧
    clampDays (DaysArg.int 50) = 50 :=
  ⟨(claim5_days_clamping 0).1,
   (claim5_days_clamping 0).2.1 (by decide),
   (claim5_days_clamping 400).2.2.1 (by decide),
   (claim5_days_clamping 50).2.2.2.1 (by decide) (by decide)⟩

/-- Claim C1 (amended): for every symbol that is non-empty after stripping
and whose stripped form is not in the cache, `get_stock_info` and
`get_stock_history` return `isSuccess=false`, empty data, the exact
not-found message, and issue no upstream fetch.  (For a symbol that strips
to empty, `get_stock_history` instead answers `"Symbol cannot be empty"`,
see the counterexample.) -/
theorem claim1_uncached_no_fetch (symbol : String) (cache : Cache)
    (upI : Fetched (Option ClosingPriceInfo)) (now : String)
    (days : DaysArg) (upH : Fetched (List DailyEntry))
    (hmiss : cache (pystrip symbol) = none) (hne : pystrip symbol ≠ "") :
    get_stock_info symbol cache upI now =
      (return_message false (Json.obj [])
        ("Stock \x27" ++ pystrip symbol ++
          "\x27 not found in cache. Please search for the stock first using search_stock tool."),
       []) ∧
    get_stock_history symbol days cache upH =
      (return_message false (Json.arr [])
        ("Stock \x27" ++ pystrip symbol ++
          "\x27 not found in cache. Please search for the stock first using search_stock tool."),
       []) := by
  constructor
  · simp [get_stock_info, hmiss]
  · simp [get_stock_history, hmiss, hne]

/-- Witness for C1 at the uncached symbol `Y` against the empty cache. -/
theorem claim1_witness :
    get_stock_info "Y" emptyCache (.resp none) "t" =
      (return_message false (Json.obj [])
        ("Stock \x27" ++ pystrip "Y" ++
          "\x27 not found in cache. Please search for the stock first using search_stock tool."),
       []) ∧
    get_stock_history "Y" (DaysArg.int 30) emptyCache (.resp []) =
      (return_message false (Json.arr [])
        ("Stock \x27" ++ pystrip "Y" ++
          "\x27 not found in cache. Please search for the stock first using search_stock tool."),
       []) :=
  claim1_uncached_no_fetch "Y" emptyCache (.resp none) "t" (DaysArg.int 30) (.resp [])
    rfl (by decide)

/-- Counterexample to C1 as stated: the empty symbol is not in the (empty)
cache, yet `get_stock_history` answers `"Symbol cannot be empty"` rather
than the claimed not-found message. -/
theorem claim1_counterexample :
    emptyCache "" = none ∧
    (get_stock_history "" (DaysArg.int 30) emptyCache (.resp [])).1 =
      return_message false (Json.arr []) "Symbol cannot be empty" ∧
    "Symbol cannot be empty" ≠
      "Stock \x27\x27 not found in cache. Please search for the stock first using search_stock tool." :=
  ⟨rfl, rfl, by decide⟩

/-- Claim C7 (amended): on every call with a cached symbol (whose stored
instrument code is non-empty), `get_stock_info` issues exactly one fetch,
of the closing-price-info URL. -/
theorem claim7_single_fetch (symbol : String) (cache : Cache) (ic : String)
    (up : Fetched (Option ClosingPriceInfo)) (now : String)
    (hhit : cache (pystrip symbol) = some ic) (hic : ic ≠ "") :
    (get_stock_info symbol cache up now).2 = [infoUrl ic] := by
  cases up with
  | raised => simp [get_stock_info, hhit, hic]
  | resp p => cases p <;> simp [get_stock_info, hhit, hic]

/-- Witness for C7 at the cached symbol `X`. -/
theorem claim7_witness :
    (get_stock_info "X" cacheX (.resp none) "t").2 = [infoUrl "1"] :=
  claim7_single_fetch "X" cacheX "1" (.resp none) "t" rfl (by decide)

/-- Counterexample to C7 as stated: a call with a cached symbol issues one
fetch, not two. -/
theorem claim7_counterexample :
    cacheX "X" = some "1" ∧
    (get_stock_info "X" cacheX (.resp none) "t").2.length = 1 ∧
    (get_stock_info "X" cacheX (.resp none) "t").2.length ≠ 2 :=
  ⟨rfl, rfl, by decide⟩

/-- Claim C2, evaluated at the failing input: a cached symbol whose closing
price has `close = 1050` present and `yesterday = 0`.  The call succeeds,
but `change_percent` is left at `None` (the `if current_price and
yesterday_price` guard of line 160 treats `0` as falsy, so the `else 0` of
line 162 never runs), not the claimed `0`. -/
theorem claim2_eval :
    envGet (get_stock_info "X" cacheX (.resp (some cpZeroYesterday)) "t").1 "isSuccess" =
      some (Json.bool true) ∧
    ((envGet (get_stock_info "X" cacheX (.resp (some cpZeroYesterday)) "t").1 "data").bind
        (fun d => d.get "trading_data")).bind (fun t => t.get "change_percent") =
      some Json.null ∧
    ((envGet (get_stock_info "X" cacheX (.resp (some cpZeroYesterday)) "t").1 "data").bind
        (fun d => d.get "trading_data")).bind (fun t => t.get "change_percent") ≠
      some (Json.num 0) := by
  refine ⟨rfl, rfl, ?_⟩
  intro h
  simp only [Option.bind] at h
  exact absurd (Option.some.inj h) (by intro hx; cases hx)

/-- Claim C6, evaluated at the failing input: an upstream response without
an `instrumentSearch` list.  Line 74-76 passes the guidance text as the
`data` positional argument of `return_message`, so the envelope carries it
under `"data"` and has no `"message"` key at all. -/
theorem claim6_eval :
    (search_stock "query" emptyCache (.resp none)).1 =
      [("isSuccess", Json.bool false),
       ("data", Json.str "No Tickers found. Make sure you used a correct query")] ∧
    envGet (search_stock "query" emptyCache (.resp none)).1 "message" = none ∧
    envGet (search_stock "query" emptyCache (.resp none)).1 "data" =
      some (Json.str "No Tickers found. Make sure you used a correct query") :=
  ⟨rfl, rfl, rfl⟩

/-- The key list of every envelope built by `return_message`. -/
theorem return_message_envKeys (b : Bool) (d : Json) (m : String) :
    envKeys (return_message b d m) =
      if m = "" then ["isSuccess", "data"] else ["isSuccess", "data", "message"] := by
  by_cases h : m = "" <;> simp [return_message, envKeys, h]

/-- Field lookups on every envelope built by `return_message`. -/
theorem return_message_envGet (b : Bool) (d : Json) (m : String) :
    envGet (return_message b d m) "isSuccess" = some (Json.bool b) ∧
    envGet (return_message b d m) "data" = some d ∧
    envGet (return_message b d m) "message" =
      (if m = "" then none else some (Json.str m)) := by
  by_cases h : m = ""
  · subst h; exact ⟨rfl, rfl, rfl⟩
  · refine ⟨?_, ?_, ?_⟩ <;> simp only [return_message, if_neg h] <;> rfl

/-- Claim C8: on every path, each of the three tools returns an envelope
built by `return_message`; every such envelope has exactly the keys
`isSuccess` (a boolean) and `data`, plus `message` exactly when the message
string is non-empty. -/
theorem claim8_envelope_shape (query : String) (cache : Cache)
    (upS : Fetched (Option (List Ticker))) (symbol : String)
    (upI : Fetched (Option ClosingPriceInfo)) (now : String)
    (days : DaysArg) (upH : Fetched (List DailyEntry)) :
    (∃ b d m, (search_stock query cache upS).1 = return_message b d m) ∧
    (∃ b d m, (get_stock_info symbol cache upI now).1 = return_message b d m) ∧
    (∃ b d m, (get_stock_history symbol days cache upH).1 = return_message b d m) ∧
    (∀ (b : Bool) (d : Json) (m : String),
      envKeys (return_message b d m) =
        if m = "" then ["isSuccess", "data"] else ["isSuccess", "data", "message"]) ∧
    (∀ (b : Bool) (d : Json) (m : String),
      envGet (return_message b d m) "isSuccess" = some (Json.bool b) ∧
      envGet (return_message b d m) "data" = some d ∧
      envGet (return_message b d m) "message" =
        (if m = "" then none else some (Json.str m))) := by
  refine ⟨?_, ?_, ?_, return_message_envKeys, return_message_envGet⟩
  · cases upS with
    | raised => exact ⟨_, _, _, rfl⟩
    | resp o =>
      cases o with
      | none => exact ⟨_, _, _, rfl⟩
      | some ts =>
        simp only [search_stock]
        split
        · exact ⟨_, _, _, rfl⟩
        · exact ⟨_, _, _, rfl⟩
  · simp only [get_stock_info]
    split
    · exact ⟨_, _, _, rfl⟩
    · split
      · exact ⟨_, _, _, rfl⟩
      · split <;> exact ⟨_, _, _, rfl⟩
  · simp only [get_stock_history]
    repeat' split
    all_goals exact ⟨_, _, _, rfl⟩

/-- A key is present after the per-ticker cache loop iff it was present
before or it is the symbol of a cacheable ticker of the processed list. -/
theorem cache_after_ne_none (ts : List Ticker) (c : Cache) (k : String) :
    cache_after c ts k ≠ none ↔ (c k ≠ none ∨ k ∈ cacheableSymbols ts) := by
  induction ts generalizing c with
  | nil => simp [cache_after, cacheableSymbols]
  | cons t rest ih =>
    have hstep : cache_after c (t :: rest) = cache_after (cacheStep c t) rest := rfl
    rw [hstep, ih]
    by_cases hct : tickerCacheable t
    · simp only [cacheableSymbols, List.filter_cons, hct, if_pos, List.map_cons,
        List.mem_cons, cacheStep, update_cache]
      by_cases hk : k = t.lVal18AFC.getD ""
      · simp [hk]
      · simp [hk]
    · simp only [cacheableSymbols, List.filter_cons, hct, List.map_cons, cacheStep]
      simp [hct, cacheableSymbols]

/-- Claim C3 (amended): for every upstream response with at least one
`instrumentSearch` match, `search_stock` returns a success envelope holding
the projections of the first (at most 10) matches, and afterwards the cache
holds a key exactly when it held it before the call or it is the symbol of
one of those returned matches whose upstream symbol and instrument-code
fields are both present and non-empty. -/
theorem claim3_search_results_and_cache (query : String) (cache : Cache)
    (ts : List Ticker) (hne : ts ≠ []) :
    (search_stock query cache (.resp (some ts))).1 =
      return_message true (Json.arr (((ts.take 10).map format_ticker).map encodeStock))
        ("Found " ++ toString ((ts.take 10).map format_ticker).length ++
          " stocks matching \x27" ++ pystrip query ++ "\x27") ∧
    ((ts.take 10).map format_ticker).length ≤ 10 ∧
    (∀ k : String, (search_stock query cache (.resp (some ts))).2 k ≠ none ↔
      (cache k ≠ none ∨ k ∈ cacheableSymbols (ts.take 10))) := by
  have hempty : ts.isEmpty = false := by
    cases ts with
    | nil => exact absurd rfl hne
    | cons a l => rfl
  refine ⟨?_, ?_, ?_⟩
  · simp [search_stock, hempty]
  · simp only [List.length_map, List.length_take]
    omega
  · intro k
    have : (search_stock query cache (.resp (some ts))).2 = cache_after cache (ts.take 10) := by
      simp [search_stock, hempty]
    rw [this]
    exact cache_after_ne_none (ts.take 10) cache k

/-- Witness for C3: one well-formed match for query `q` against the empty
cache; the symbol `KHODRO` is cached afterwards. -/
theorem claim3_witness :
    (search_stock "q" emptyCache (.resp (some [tKhodro]))).1 =
      return_message true
        (Json.arr ((([tKhodro].take 10).map format_ticker).map encodeStock))
        ("Found " ++ toString (([tKhodro].take 10).map format_ticker).length ++
          " stocks matching \x27" ++ pystrip "q" ++ "\x27") ∧
    (search_stock "q" emptyCache (.resp (some [tKhodro]))).2 "KHODRO" ≠ none := by
  have h := claim3_search_results_and_cache "q" emptyCache [tKhodro] (List.cons_ne_nil _ _)
  exact ⟨h.1, (h.2.2 "KHODRO").mpr (Or.inr (by decide))⟩

/-- Counterexample to C3 as stated: a returned entry whose `insCode` is
missing appears in the result list with symbol `X`, but `X` is not stored
in the cache; and a pre-existing cache entry `Z` survives the call even
though `Z` is not among the returned symbols. -/
theorem claim3_counterexample :
    envGet (search_stock "q" emptyCache (.resp (some [tNoCode]))).1 "isSuccess" =
      some (Json.bool true) ∧
    envGet (search_stock "q" emptyCache (.resp (some [tNoCode]))).1 "data" =
      some (Json.arr [Json.obj [("name", Json.str "Nameless"), ("symbol", Json.str "X"),
        ("market_name", Json.str "Market"), ("instrument_code", Json.str "")]]) ∧
    (search_stock "q" emptyCache (.resp (some [tNoCode]))).2 "X" = none ∧
    (search_stock "q" (update_cache emptyCache "Z" "9") (.resp (some [tKhodro]))).2 "Z" =
      some "9" :=
  ⟨rfl, rfl, rfl, rfl⟩

/-- The descending date comparator of line 219 is transitive. -/
theorem histLe_trans (a b c : DailyEntry) (h1 : histLe a b) (h2 : histLe b c) :
    histLe a c := by
  simp only [histLe, decide_eq_true_eq] at h1 h2 ⊢
  exact le_trans h2 h1

/-- The descending date comparator of line 219 is total. -/
theorem histLe_total (a b : DailyEntry) : histLe a b || histLe b a := by
  simp only [histLe, Bool.or_eq_true, decide_eq_true_eq]
  exact le_total (histKey b) (histKey a)

/-- The sorted daily list is pairwise descending on the date key. -/
theorem mergeSort_hist_pairwise (ds : List DailyEntry) :
    (ds.mergeSort histLe).Pairwise (fun a b => histKey b ≤ histKey a) := by
  have h := @List.sorted_mergeSort DailyEntry histLe
    (fun a b c => histLe_trans a b c) (fun a b => histLe_total a b) ds
  exact h.imp (fun hab => by simpa [histLe] using hab)

/-- Claim C4 (amended): for every cached symbol (non-empty after stripping,
with non-empty stored code) and non-empty upstream daily list,
`get_stock_history` returns the first `clampDays days` entries of the list
sorted descending by date; it returns at most 365 entries, at most
`min days 365` whenever `days` is an integer `≥ 1`, and the returned
entries are pairwise sorted by date, most recent first. -/
theorem claim4_history_sorted_clamped (symbol : String) (days : DaysArg) (cache : Cache)
    (ic : String) (ds : List DailyEntry)
    (hs : pystrip symbol ≠ "") (hc : cache (pystrip symbol) = some ic)
    (hic : ic ≠ "") (hds : ds ≠ []) :
    (get_stock_history symbol days cache (.resp ds)).1 =
      return_message true
        (Json.arr (((ds.mergeSort histLe).take (clampDays days).toNat).map formatDay))
        ("Retrieved " ++
          toString (((ds.mergeSort histLe).take (clampDays days).toNat).map formatDay).length ++
          " days of historical data for " ++ pystrip symbol) ∧
    ((ds.mergeSort histLe).take (clampDays days).toNat).length ≤ 365 ∧
    (∀ n : ℤ, days = DaysArg.int n → 1 ≤ n →
      ((((ds.mergeSort histLe).take (clampDays days).toNat).length : ℤ) ≤ min n 365)) ∧
    ((ds.mergeSort histLe).take (clampDays days).toNat).Pairwise
      (fun a b => histKey b ≤ histKey a) := by
  have hempty : ds.isEmpty = false := by
    cases ds with
    | nil => exact absurd rfl hds
    | cons a l => rfl
  have hlen : ((ds.mergeSort histLe).take (clampDays days).toNat).length ≤
      (clampDays days).toNat := List.length_take_le _ _
  have hclamp365 : clampDays days ≤ 365 := by
    cases days with
    | notInt => simp [clampDays]
    | int n => simp only [clampDays]; split_ifs <;> omega
  have hclamp1 : 1 ≤ clampDays days := by
    cases days with
    | notInt => simp [clampDays]
    | int n => simp only [clampDays]; split_ifs <;> omega
  refine ⟨?_, ?_, ?_, ?_⟩
  · simp [get_stock_history, hs, hc, hic, hempty]
  · omega
  · intro n hn h1
    subst hn
    have hmin : clampDays (DaysArg.int n) = min n 365 := by
      simp only [clampDays]; split_ifs <;> omega
    rw [hmin] at hlen ⊢
    omega
  · exact (mergeSort_hist_pairwise ds).sublist (List.take_sublist _ _)

/-- Witness for C4: three out-of-order daily entries, `days = 2`, cached
symbol `X`. -/
theorem claim4_witness :
    (get_stock_history "X" (DaysArg.int 2) cacheX (.resp ds3)).1 =
      return_message true
        (Json.arr (((ds3.mergeSort histLe).take (clampDays (DaysArg.int 2)).toNat).map formatDay))
        ("Retrieved " ++
          toString (((ds3.mergeSort histLe).take
            (clampDays (DaysArg.int 2)).toNat).map formatDay).length ++
          " days of historical data for " ++ pystrip "X") ∧
    ((ds3.mergeSort histLe).take (clampDays (DaysArg.int 2)).toNat).length ≤ 365 ∧
    (∀ n : ℤ, DaysArg.int 2 = DaysArg.int n → 1 ≤ n →
      ((((ds3.mergeSort histLe).take (clampDays (DaysArg.int 2)).toNat).length : ℤ) ≤
        min n 365)) ∧
    ((ds3.mergeSort histLe).take (clampDays (DaysArg.int 2)).toNat).Pairwise
      (fun a b => histKey b ≤ histKey a) :=
  claim4_history_sorted_clamped "X" (DaysArg.int 2) cacheX "1" ds3
    (by decide) rfl (by decide) (by simp [ds3])

/-- Counterexample to C4 as stated: with `days = 0` (reset to the default
30 by line 193-194) and a one-entry daily list, the call returns 1 entry,
which exceeds `min days 365 = 0`. -/
theorem claim4_counterexample :
    (get_stock_history "X" (DaysArg.int 0) cacheX (.resp [d1])).1 =
      return_message true (Json.arr [formatDay d1])
        "Retrieved 1 days of historical data for X" ∧
    ¬ ((1 : ℤ) ≤ min (0 : ℤ) 365) := by
  constructor
  · simp only [get_stock_history, List.mergeSort, cacheX, update_cache, emptyCache,
      clampDays, pystrip]
    rfl
  · decide

/-- Claim C10: whenever the upstream answers any non-200 status, the
sentinel mapping from `make_request` lacks the key each tool reads, so
`search_stock` answers its fixed no-tickers failure envelope and
`get_stock_info`/`get_stock_history` (on cached symbols) answer their
specific no-data messages — indistinguishable from a genuinely empty
result. -/
theorem claim10_non200_no_data (url1 url2 url3 : String) (status : Nat) (body : Json)
    (query symbol : String) (cache : Cache) (ic : String) (now : String) (days : DaysArg)
    (hst : status ≠ 200) (hs : pystrip symbol ≠ "")
    (hc : cache (pystrip symbol) = some ic) (hic : ic ≠ "") :
    (search_stock query cache (decodeSearch (make_request url1 status body))).1 =
      return_message false
        (Json.str "No Tickers found. Make sure you used a correct query") "" ∧
    (get_stock_info symbol cache (decodeInfo (make_request url2 status body)) now).1 =
      return_message false (Json.obj [])
        ("No trading data found for \x27" ++ pystrip symbol ++ "\x27") ∧
    (get_stock_history symbol days cache (decodeHist (make_request url3 status body))).1 =
      return_message false (Json.arr [])
        ("No historical data found for \x27" ++ pystrip symbol ++ "\x27") := by
  have hsent : ∀ u, make_request u status body =
      Json.obj [("error", Json.str "Failed to fetch data")] := by
    intro u; simp [make_request, hst]
  have hdS : decodeSearch (Json.obj [("error", Json.str "Failed to fetch data")]) =
      .resp none := rfl
  have hdI : decodeInfo (Json.obj [("error", Json.str "Failed to fetch data")]) =
      .resp none := rfl
  have hdH : decodeHist (Json.obj [("error", Json.str "Failed to fetch data")]) =
      .resp [] := rfl
  refine ⟨?_, ?_, ?_⟩
  · rw [hsent, hdS]; rfl
  · rw [hsent, hdI]
    simp [get_stock_info, hc, hic]
  · rw [hsent, hdH]
    simp [get_stock_history, hs, hc, hic]

/-- Witness for C10 at status 500 with cached symbol `X`. -/
theorem claim10_witness :
    (search_stock "q" cacheX (decodeSearch (make_request "u1" 500 Json.null))).1 =
      return_message false
        (Json.str "No Tickers found. Make sure you used a correct query") "" ∧
    (get_stock_info "X" cacheX (decodeInfo (make_request "u2" 500 Json.null)) "t").1 =
      return_message false (Json.obj [])
        ("No trading data found for \x27" ++ pystrip "X" ++ "\x27") ∧
    (get_stock_history "X" (DaysArg.int 30) cacheX
        (decodeHist (make_request "u3" 500 Json.null))).1 =
      return_message false (Json.arr [])
        ("No historical data found for \x27" ++ pystrip "X" ++ "\x27") :=
  claim10_non200_no_data "u1" "u2" "u3" 500 Json.null "q" "X" cacheX "1" "t"
    (DaysArg.int 30) (by decide) (by decide) rfl (by decide)

end TseMcp
